import Mathlib

/-!
Verification of the naver_keyword_proxy service (src/main.py) against its
natural-language specification.

The development shallowly embeds the parts of the program the claims are
about:

* `make_searchad_signature` — the HMAC-SHA256 request-signing routine,
  built on an executable SHA-256 (FIPS 180-4), HMAC (RFC 2104), standard
  base64 with padding, and UTF-8 encoding of strings.
* a JSON value model with Python semantics for `dict.get`, truthiness and
  `int(...)` coercion, used by both request handlers.
* the two request handlers `blog_total` and `search_volume`, with the
  outbound network call abstracted as an oracle from the constructed
  outbound request to an upstream result, so that "no network call is
  attempted" is expressible as the request constructor returning `none`.

Byte strings are `List Nat` with every element < 256; 32-bit words are
`Nat` reduced modulo 2^32 where overflow matters.
-/

namespace NaverProxy

/-! ## 32-bit word arithmetic -/

/-- Truncate to a 32-bit word. -/
def w32 (n : Nat) : Nat := n % 4294967296

/-- 32-bit modular addition. -/
def add32 (a b : Nat) : Nat := (a + b) % 4294967296

/-- Right-rotation of a 32-bit word by `n` places. -/
def rotr (n x : Nat) : Nat := w32 ((x >>> n) ||| (x <<< (32 - n)))

/-- Bitwise complement of a 32-bit word. -/
def not32 (x : Nat) : Nat := x ^^^ 4294967295

/-! ## SHA-256 (FIPS 180-4) -/

/-- The SHA-256 `Ch` function. -/
def sha256Ch (x y z : Nat) : Nat := (x &&& y) ^^^ (not32 x &&& z)

/-- The SHA-256 `Maj` function. -/
def sha256Maj (x y z : Nat) : Nat := (x &&& y) ^^^ (x &&& z) ^^^ (y &&& z)

/-- Big sigma 0. -/
def bsig0 (x : Nat) : Nat := rotr 2 x ^^^ rotr 13 x ^^^ rotr 22 x

/-- Big sigma 1. -/
def bsig1 (x : Nat) : Nat := rotr 6 x ^^^ rotr 11 x ^^^ rotr 25 x

/-- Small sigma 0. -/
def ssig0 (x : Nat) : Nat := rotr 7 x ^^^ rotr 18 x ^^^ (x >>> 3)

/-- Small sigma 1. -/
def ssig1 (x : Nat) : Nat := rotr 17 x ^^^ rotr 19 x ^^^ (x >>> 10)

/-- The 64 SHA-256 round constants (FIPS 180-4 section 4.2.2, written in
decimal). -/
def sha256K : List Nat :=
  [1116352408, 1899447441, 3049323471, 3921009573, 961987163,
   1508970993, 2453635748, 2870763221, 3624381080, 310598401,
   607225278, 1426881987, 1925078388, 2162078206, 2614888103,
   3248222580, 3835390401, 4022224774, 264347078, 604807628,
   770255983, 1249150122, 1555081692, 1996064986, 2554220882,
   2821834349, 2952996808, 3210313671, 3336571891, 3584528711,
   113926993, 338241895, 666307205, 773529912, 1294757372,
   1396182291, 1695183700, 1986661051, 2177026350, 2456956037,
   2730485921, 2820302411, 3259730800, 3345764771, 3516065817,
   3600352804, 4094571909, 275423344, 430227734, 506948616,
   659060556, 883997877, 958139571, 1322822218, 1537002063,
   1747873779, 1955562222, 2024104815, 2227730452, 2361852424,
   2428436474, 2756734187, 3204031479, 3329325298]

/-- Initial hash state (FIPS 180-4 section 5.3.3, written in decimal). -/
def sha256H0 : List Nat :=
  [1779033703, 3144134277, 1013904242, 2773480762,
   1359893119, 2600822924, 528734635, 1541459225]

/-- Extend a 16-word block to the 64-word message schedule; `fuel` counts
the remaining words to append (48 at the top call). -/
def sha256Schedule : Nat → List Nat → List Nat
  | 0, ws => ws
  | n + 1, ws =>
    let t := ws.length
    let w := add32 (add32 (ssig1 (ws.getD (t - 2) 0)) (ws.getD (t - 7) 0))
                   (add32 (ssig0 (ws.getD (t - 15) 0)) (ws.getD (t - 16) 0))
    sha256Schedule n (ws ++ [w])

/-- One round of the SHA-256 compression function; the state is the list
`[a, b, c, d, e, f, g, h]` and `kw` is the pair of round constant and
schedule word. -/
def sha256Round (st : List Nat) (kw : Nat × Nat) : List Nat :=
  match st with
  | [a, b, c, d, e, f, g, h] =>
    let t1 := add32 h (add32 (bsig1 e) (add32 (sha256Ch e f g) (add32 kw.1 kw.2)))
    let t2 := add32 (bsig0 a) (sha256Maj a b c)
    [add32 t1 t2, a, b, c, add32 d t1, e, f, g]
  | st => st

/-- Compress one 16-word block into the running hash state. -/
def sha256Block (h : List Nat) (block : List Nat) : List Nat :=
  let ws := sha256Schedule 48 block
  let st := (sha256K.zip ws).foldl sha256Round h
  (h.zip st).map (fun p => add32 p.1 p.2)

/-- Pack big-endian bytes into 32-bit words, four at a time. -/
def bytesToWords : List Nat → List Nat
  | a :: b :: c :: d :: rest =>
    (a * 16777216 + b * 65536 + c * 256 + d) :: bytesToWords rest
  | _ => []

/-- Unpack a 32-bit word into four big-endian bytes. -/
def wordToBytes (w : Nat) : List Nat :=
  [(w >>> 24) % 256, (w >>> 16) % 256, (w >>> 8) % 256, w % 256]

/-- SHA-256 padding: append `0x80`, zeros up to 56 mod 64, then the bit
length as an 8-byte big-endian integer. -/
def sha256Pad (msg : List Nat) : List Nat :=
  let l := msg.length
  let zeros := (119 - l % 64) % 64
  let bitLen := 8 * l
  msg ++ [0x80] ++ List.replicate zeros 0 ++
    [(bitLen >>> 56) % 256, (bitLen >>> 48) % 256, (bitLen >>> 40) % 256,
     (bitLen >>> 32) % 256, (bitLen >>> 24) % 256, (bitLen >>> 16) % 256,
     (bitLen >>> 8) % 256, bitLen % 256]

/-- Split a byte list into 64-byte chunks; `fuel` bounds the recursion and
is taken as the length of the list. -/
def chunk64 : Nat → List Nat → List (List Nat)
  | 0, _ => []
  | _, [] => []
  | fuel + 1, bs => bs.take 64 :: chunk64 fuel (bs.drop 64)

/-- SHA-256 of a byte string, as 32 bytes. -/
def sha256 (msg : List Nat) : List Nat :=
  let padded := sha256Pad msg
  let blocks := chunk64 padded.length padded
  let hFinal := blocks.foldl (fun h b => sha256Block h (bytesToWords b)) sha256H0
  hFinal.flatMap wordToBytes

/-! ## HMAC-SHA256 (RFC 2104) -/

/-- HMAC-SHA256 of a message under a key, as 32 bytes. A key longer than
the 64-byte block is first hashed; the key is then zero-padded to 64 bytes
and combined with the inner/outer pad bytes 0x36 and 0x5c. -/
def hmacSha256 (key msg : List Nat) : List Nat :=
  let k0 := if 64 < key.length then sha256 key else key
  let kPad := k0 ++ List.replicate (64 - k0.length) 0
  let inner := sha256 (kPad.map (fun b => b ^^^ 0x36) ++ msg)
  sha256 (kPad.map (fun b => b ^^^ 0x5c) ++ inner)

/-! ## Standard base64 with padding -/

/-- The base64 alphabet. -/
def b64Alphabet : List Char :=
  "ABCDEFGHIJKLMNOPQRSTUVWXYZabcdefghijklmnopqrstuvwxyz0123456789+/".data

/-- The base64 character for a 6-bit value. -/
def b64Char (n : Nat) : Char := b64Alphabet.getD n 'A'

/-- Standard base64 encoding with `=` padding, three input bytes at a
time. -/
def b64encodeBytes : List Nat → List Char
  | a :: b :: c :: rest =>
    b64Char (a >>> 2) :: b64Char ((a % 4) * 16 + (b >>> 4)) ::
      b64Char ((b % 16) * 4 + (c >>> 6)) :: b64Char (c % 64) ::
      b64encodeBytes rest
  | [a, b] =>
    [b64Char (a >>> 2), b64Char ((a % 4) * 16 + (b >>> 4)),
     b64Char ((b % 16) * 4), '=']
  | [a] =>
    [b64Char (a >>> 2), b64Char ((a % 4) * 16), '=', '=']
  | [] => []

/-- Standard base64 encoding as a string. -/
def b64encode (bs : List Nat) : String := String.mk (b64encodeBytes bs)

/-! ## UTF-8 encoding -/

/-- UTF-8 encoding of a single character (1 to 4 bytes). -/
def utf8Char (c : Char) : List Nat :=
  let n := c.toNat
  if n < 0x80 then [n]
  else if n < 0x800 then
    [0xC0 ||| (n >>> 6), 0x80 ||| (n &&& 0x3F)]
  else if n < 0x10000 then
    [0xE0 ||| (n >>> 12), 0x80 ||| ((n >>> 6) &&& 0x3F), 0x80 ||| (n &&& 0x3F)]
  else
    [0xF0 ||| (n >>> 18), 0x80 ||| ((n >>> 12) &&& 0x3F),
     0x80 ||| ((n >>> 6) &&& 0x3F), 0x80 ||| (n &&& 0x3F)]

/-- UTF-8 encoding of a string, as in Python `s.encode("utf-8")`. -/
def utf8 (s : String) : List Nat := s.data.flatMap utf8Char

/-! ## The signature routine of src/main.py

`make_searchad_signature(timestamp, method, uri, secret_key)` builds
`message = f"{timestamp}.{method}.{uri}"` and returns the base64 encoding
of the HMAC-SHA256 of the UTF-8 message under the UTF-8 secret key. -/

/-- Embedding of `make_searchad_signature` from src/main.py. -/
def make_searchad_signature (timestamp method uri secret_key : String) : String :=
  let message := timestamp ++ "." ++ method ++ "." ++ uri
  b64encode (hmacSha256 (utf8 secret_key) (utf8 message))

/-! ## JSON values with Python semantics

The handlers receive `resp.json()` as a Python object. JSON numbers are
modelled as integers (the upstream count fields at issue are integers or
strings); object fields are an association list. -/

/-- A JSON value as produced by `resp.json()`. -/
inductive Json where
  | null
  | bool (b : Bool)
  | num (n : Int)
  | str (s : String)
  | arr (xs : List Json)
  | obj (fields : List (String × Json))

/-- First-match association-list lookup, as in a Python dict whose keys
are unique. -/
def lookupField : List (String × Json) → String → Option Json
  | [], _ => none
  | (k, v) :: rest, key => if k = key then some v else lookupField rest key

/-- Python truthiness of a JSON value (`bool(v)`): `None`, `False`, `0`,
`""`, `[]` and `{}` are falsy. -/
def Json.truthy : Json → Bool
  | .null => false
  | .bool b => b
  | .num n => n != 0
  | .str s => s != ""
  | .arr xs => !xs.isEmpty
  | .obj fs => !fs.isEmpty

/-- Python ASCII whitespace, as stripped by `int(str)`. -/
def isPySpace (c : Char) : Bool :=
  c.toNat = 32 || c.toNat = 9 || c.toNat = 10 || c.toNat = 13 ||
    c.toNat = 11 || c.toNat = 12

/-- Digits of a Python integer literal after the first, allowing a single
underscore between digits; `none` on any other character. -/
def pyDigitsRest (acc : Nat) : List Char → Option Nat
  | [] => some acc
  | '_' :: c :: cs =>
    if c.isDigit then pyDigitsRest (10 * acc + (c.toNat - 48)) cs else none
  | ['_'] => none
  | c :: cs =>
    if c.isDigit then pyDigitsRest (10 * acc + (c.toNat - 48)) cs else none

/-- A nonempty run of digits starting with a digit, Python-style. -/
def pyDigits : List Char → Option Nat
  | [] => none
  | c :: cs => if c.isDigit then pyDigitsRest (c.toNat - 48) cs else none

/-- Python `int(s)` for an ASCII string: strip whitespace, optional sign,
then digits (underscores allowed between digits); `none` models the
`ValueError` raised otherwise. -/
def pyIntStr (s : String) : Option Int :=
  let cs := ((s.data.dropWhile isPySpace).reverse.dropWhile isPySpace).reverse
  match cs with
  | '+' :: rest => (pyDigits rest).map (fun n => (n : Int))
  | '-' :: rest => (pyDigits rest).map (fun n => -(n : Int))
  | rest => (pyDigits rest).map (fun n => (n : Int))

/-- Python `int(v)` on a JSON value; `none` models the `TypeError` or
`ValueError` raised when `v` is not coercible. -/
def pyInt : Json → Option Int
  | .bool b => some (if b then 1 else 0)
  | .num n => some n
  | .str s => pyIntStr s
  | _ => none

/-! ## Handler results and the network abstraction -/

/-- The reply of the blog-total handler. -/
structure BlogReply where
  keyword : String
  total : Int
deriving DecidableEq

/-- The reply of the search-volume handler; the `keyword` field is the
JSON value `first.get("relKeyword", keyword)`. -/
structure SVReply where
  keyword : Json
  monthlyPcQcCnt : Int
  monthlyMobileQcCnt : Int
  monthlyTotalQcCnt : Int

/-- Outcome of a handler: a success payload, a raised `HTTPException`
(status code and detail), or an uncaught Python exception (which FastAPI
turns into a 500, failing the request). -/
inductive HResult (α : Type) where
  | ok (payload : α)
  | httpError (status : Nat) (detail : String)
  | exn (msg : String)

/-- What `requests.get` produced: a `RequestException`, or a response
with a status code, raw text body, and the value `resp.json()` parses
to. -/
inductive UpstreamResult where
  | netError (msg : String)
  | response (status : Nat) (text : String) (body : Json)

/-! ## The blog-total handler (src/main.py, `blog_total`) -/

/-- The 200 branch of `blog_total`: `data.get("total", 0)`, then `int(...)`
with `TypeError`/`ValueError` caught and replaced by 0. A non-object body
raises `AttributeError` at `data.get`. -/
def blog_total_on200 (query : String) (body : Json) : HResult BlogReply :=
  match body with
  | .obj fs =>
    let total := (lookupField fs "total").getD (.num 0)
    let total_int := (pyInt total).getD 0
    .ok ⟨query, total_int⟩
  | _ => .exn "AttributeError"

/-- Embedding of the `blog_total` handler, given the outcome of the
outbound call. -/
def blog_total (query : String) (upstream : UpstreamResult) : HResult BlogReply :=
  match upstream with
  | .netError e => .httpError 502 ("네이버 블로그 API 호출 실패: " ++ e)
  | .response status text body =>
    if status ≠ 200 then .httpError status text
    else blog_total_on200 query body

/-! ## The search-volume handler (src/main.py, `search_volume`) -/

/-- The three module-level ad secrets, each `os.getenv(...)`: `None` when
the variable is unset, otherwise its string value. -/
structure AdConfig where
  apiKey : Option String
  secretKey : Option String
  customerId : Option String

/-- Python truthiness of an `os.getenv` result: `None` and `""` are
falsy. -/
def envTruthy : Option String → Bool
  | none => false
  | some s => s != ""

/-- `SEARCHAD_BASE_URL` from src/main.py. -/
def SEARCHAD_BASE_URL : String := "https://api.searchad.naver.com"

/-- `SEARCHAD_URI` from src/main.py. -/
def SEARCHAD_URI : String := "/keywordstool"

/-- The outbound request `search_volume` hands to `requests.get`. -/
structure OutboundRequest where
  url : String
  xTimestamp : String
  xApiKey : String
  xCustomer : String
  xSignature : String
  hintKeywords : String
  showDetail : String

/-- The request-construction phase of `search_volume`: `none` when the
secret check `if not A or not B or not C` fires, in which case the
handler raises before any network activity; otherwise the request that
is sent. -/
def search_volume_request (cfg : AdConfig) (timestamp keyword : String) :
    Option OutboundRequest :=
  if envTruthy cfg.apiKey && envTruthy cfg.secretKey && envTruthy cfg.customerId then
    some
      { url := SEARCHAD_BASE_URL ++ SEARCHAD_URI
        xTimestamp := timestamp
        xApiKey := cfg.apiKey.getD ""
        xCustomer := cfg.customerId.getD ""
        xSignature := make_searchad_signature timestamp "GET" SEARCHAD_URI
          (cfg.secretKey.getD "")
        hintKeywords := keyword
        showDetail := "1" }
  else none

/-- `int(x or 0)`: a falsy `x` (empty string, `None`, `0`, `False`, empty
list) becomes `int(0) = 0`; otherwise Python `int(x)`, whose failure the
handler does not catch. -/
def coerceCnt (v : Json) : Option Int :=
  if v.truthy then pyInt v else some 0

/-- The 200 branch of `search_volume`: read `keywordList` (default `[]`),
return zeros when it is falsy, otherwise take the first element and
coerce its two count fields with `int(first.get(k, "0") or 0)`; the reply
keyword is `first.get("relKeyword", keyword)` and the total is recomputed
as `pc + mobile`. Non-dict bodies or elements raise. -/
def search_volume_on200 (keyword : String) (body : Json) : HResult SVReply :=
  match body with
  | .obj fs =>
    let kwList := (lookupField fs "keywordList").getD (.arr [])
    if !kwList.truthy then
      .ok ⟨.str keyword, 0, 0, 0⟩
    else
      match kwList with
      | .arr (first :: _) =>
        match first with
        | .obj ffs =>
          let pcRaw := (lookupField ffs "monthlyPcQcCnt").getD (.str "0")
          let mobRaw := (lookupField ffs "monthlyMobileQcCnt").getD (.str "0")
          match coerceCnt pcRaw, coerceCnt mobRaw with
          | some pc, some mobile =>
            .ok ⟨(lookupField ffs "relKeyword").getD (.str keyword),
                 pc, mobile, pc + mobile⟩
          | _, _ => .exn "int() conversion failed"
        | _ => .exn "first element is not a dict"
      | _ => .exn "keywordList is not a list"
  | _ => .exn "AttributeError"

/-- Embedding of the `search_volume` handler: the secret check, then the
outbound call (abstracted as `net`), then status dispatch and response
normalization. -/
def search_volume (cfg : AdConfig) (keyword timestamp : String)
    (net : OutboundRequest → UpstreamResult) : HResult SVReply :=
  match search_volume_request cfg timestamp keyword with
  | none =>
    .httpError 500 "검색광고 API 키(NAVER_SEARCH_*)가 설정되어 있지 않습니다."
  | some req =>
    match net req with
    | .netError e => .httpError 502 ("네이버 검색광고 API 네트워크 오류: " ++ e)
    | .response status text body =>
      if status ≠ 200 then .httpError status text
      else search_volume_on200 keyword body

/-- The integer the blog handler derives from the body's `total` field:
the field (defaulting to 0), Python-int-coerced, with coercion failures
replaced by 0. -/
def blogTotalCoerced (fs : List (String × Json)) : Int :=
  (pyInt ((lookupField fs "total").getD (Json.num 0))).getD 0

end NaverProxy

namespace NaverProxy

set_option maxRecDepth 100000

/-! ## Validation of the hash embedding against FIPS 180-4 test vectors -/

/-- SHA-256 of `"abc"` matches the FIPS 180-4 example digest. -/
theorem sha256_fips_abc :
    sha256 [0x61, 0x62, 0x63] =
      [0xba, 0x78, 0x16, 0xbf, 0x8f, 0x01, 0xcf, 0xea, 0x41, 0x41, 0x40, 0xde,
       0x5d, 0xae, 0x22, 0x23, 0xb0, 0x03, 0x61, 0xa3, 0x96, 0x17, 0x7a, 0x9c,
       0xb4, 0x10, 0xff, 0x61, 0xf2, 0x00, 0x15, 0xad] := by decide

/-- SHA-256 of the empty message matches the well-known digest. -/
theorem sha256_empty_vector :
    sha256 [] =
      [0xe3, 0xb0, 0xc4, 0x42, 0x98, 0xfc, 0x1c, 0x14, 0x9a, 0xfb, 0xf4, 0xc8,
       0x99, 0x6f, 0xb9, 0x24, 0x27, 0xae, 0x41, 0xe4, 0x64, 0x9b, 0x93, 0x4c,
       0xa4, 0x95, 0x99, 0x1b, 0x78, 0x52, 0xb8, 0x55] := by decide

/-! ## The claims -/

/-- C1: for timestamp "1700000000000", method "GET", uri "/keywordstool"
and secret key "testsecret", `make_searchad_signature` returns exactly the
standard padded base64 encoding of the HMAC-SHA256 digest of the UTF-8
message "1700000000000.GET./keywordstool" keyed by the UTF-8 bytes of
"testsecret", which is the golden value
"fuHX40uNqzqSa8XbPSJCjkDkMxKWXsShtT2nGHpb4ck=". -/
theorem spec_C1_signature_golden :
    make_searchad_signature "1700000000000" "GET" "/keywordstool" "testsecret"
      = b64encode (hmacSha256 (utf8 "testsecret")
          (utf8 "1700000000000.GET./keywordstool"))
    ∧ make_searchad_signature "1700000000000" "GET" "/keywordstool" "testsecret"
      = "fuHX40uNqzqSa8XbPSJCjkDkMxKWXsShtT2nGHpb4ck=" :=
  ⟨rfl, by decide⟩

/-- C2, counterexample: the claim says the method is converted to
uppercase so that signing with "get" equals signing with "GET"; the code
uses the method verbatim, and the two signatures differ. -/
theorem spec_C2_counterexample :
    make_searchad_signature "1700000000000" "get" "/keywordstool" "testsecret"
      ≠ make_searchad_signature "1700000000000" "GET" "/keywordstool" "testsecret" := by
  decide

/-- C2, amended: the message is the timestamp, the method EXACTLY AS
GIVEN (no case conversion), and the uri, joined by literal dots; signing
with "get" therefore yields a different signature from "GET" (here its
golden value, distinct from C1's). -/
theorem spec_C2_message_verbatim :
    (∀ t m u k, make_searchad_signature t m u k
        = b64encode (hmacSha256 (utf8 k) (utf8 (t ++ "." ++ m ++ "." ++ u))))
    ∧ make_searchad_signature "1700000000000" "get" "/keywordstool" "testsecret"
      = "bQbT79Q5Hg8hjkGV0AndA0bPjFD71ORLCfiqtyhtJMU=" :=
  ⟨fun _ _ _ _ => rfl, by decide⟩

/-- C3: for every JSON-object body on the 200 path, the blog handler
replies with the original query and the `total` field coerced by Python
`int`, substituting 0 when the field is absent or not coercible; it never
raises. Concretely, `{"total": "42"}` yields 42 and a body without
`total` yields 0. -/
theorem spec_C3_blog_total_coercion :
    (∀ q fs, ∃ r, blog_total_on200 q (Json.obj fs) = .ok r ∧ r.keyword = q ∧
      ((∃ v, lookupField fs "total" = some v ∧ pyInt v = some r.total) ∨
       (r.total = 0 ∧ (lookupField fs "total" = none ∨
         ∃ v, lookupField fs "total" = some v ∧ pyInt v = none))))
    ∧ blog_total_on200 "k" (Json.obj [("total", Json.str "42")])
        = .ok ⟨"k", 42⟩
    ∧ blog_total_on200 "q" (Json.obj [("other", Json.num 7)])
        = .ok ⟨"q", 0⟩ := by
  refine ⟨fun q fs => ⟨⟨q, blogTotalCoerced fs⟩, rfl, rfl, ?_⟩, rfl, rfl⟩
  rcases h : lookupField fs "total" with _ | v
  · exact Or.inr ⟨by simp [blogTotalCoerced, h, pyInt], Or.inl rfl⟩
  · rcases hv : pyInt v with _ | n
    · exact Or.inr ⟨by simp [blogTotalCoerced, h, hv], Or.inr ⟨v, rfl, hv⟩⟩
    · exact Or.inl ⟨v, rfl, by simp [blogTotalCoerced, h, hv]⟩

/-- In every success reply of the search-volume 200 branch, the total is
the sum of the pc and mobile counts: both `ok` sites of the handler
produce `pc + mobile` (with `0 = 0 + 0` at the empty-list site). -/
theorem sv_ok_total_eq (kw : String) (body : Json) (r : SVReply)
    (h : search_volume_on200 kw body = .ok r) :
    r.monthlyTotalQcCnt = r.monthlyPcQcCnt + r.monthlyMobileQcCnt := by
  cases body <;> simp only [search_volume_on200] at h <;>
    try exact HResult.noConfusion h
  split at h
  · cases h; rfl
  · split at h <;> try exact HResult.noConfusion h
    split at h <;> try exact HResult.noConfusion h
    split at h <;> try exact HResult.noConfusion h
    cases h; simp

/-- C4, counterexample: the claim says every count in a success reply is
non-negative even when upstream supplies negative values; with upstream
body `{"total": "-5"}` the blog handler replies with total -5 < 0. -/
theorem spec_C4_counterexample :
    blog_total_on200 "k" (Json.obj [("total", Json.str "-5")]) = .ok ⟨"k", -5⟩
    ∧ ((-5 : Int) < 0) := ⟨rfl, by decide⟩

/-- C4, amended: every count field in a success reply is the UNCLAMPED
Python-int coercion of the corresponding upstream value: the blog total
equals the coerced `total` field, and the search-volume pc and mobile
counts equal the coerced first-element fields with the total recomputed
as their sum; so all counts are non-negative whenever the coerced
upstream values are, but negative upstream string or numeric values
produce negative counts, as the concrete instance with pc "-100" and
mobile -3 shows. -/
theorem spec_C4_counts_no_clamping :
    (∀ q fs r, blog_total_on200 q (Json.obj fs) = .ok r →
      r.total = blogTotalCoerced fs ∧ (0 ≤ blogTotalCoerced fs → 0 ≤ r.total))
    ∧ (∀ kw fs ffs rest pc mobile,
        lookupField fs "keywordList" = some (Json.arr (Json.obj ffs :: rest)) →
        coerceCnt ((lookupField ffs "monthlyPcQcCnt").getD (Json.str "0"))
          = some pc →
        coerceCnt ((lookupField ffs "monthlyMobileQcCnt").getD (Json.str "0"))
          = some mobile →
        search_volume_on200 kw (Json.obj fs)
          = .ok ⟨(lookupField ffs "relKeyword").getD (Json.str kw),
                 pc, mobile, pc + mobile⟩
        ∧ (0 ≤ pc → 0 ≤ mobile → 0 ≤ pc ∧ 0 ≤ mobile ∧ 0 ≤ pc + mobile))
    ∧ search_volume_on200 "k" (Json.obj [("keywordList", Json.arr
        [Json.obj [("monthlyPcQcCnt", Json.str "-100"),
                   ("monthlyMobileQcCnt", Json.num (-3))]])])
      = .ok ⟨Json.str "k", -100, -3, -103⟩ := by
  refine ⟨?_, ?_, rfl⟩
  · intro q fs r h
    have h2 : HResult.ok (⟨q, blogTotalCoerced fs⟩ : BlogReply) = .ok r := h
    injection h2 with h3
    rw [← h3]
    exact ⟨rfl, fun hge => hge⟩
  · intro kw fs ffs rest pc mobile h hpc hmob
    constructor
    · simp [search_volume_on200, h, Json.truthy, hpc, hmob]
    · intro h1 h2
      exact ⟨h1, h2, add_nonneg h1 h2⟩

/-- C4, witness: the amended theorem applied to `{"total": "42"}` for the
blog handler and, for the search-volume handler, to a first entry with
pc "7" and mobile absent, whose coercions 7 and 0 reappear unclamped in
the reply. -/
theorem spec_C4_witness :
    (0 ≤ (BlogReply.mk "k" 42).total)
    ∧ (search_volume_on200 "w" (Json.obj [("keywordList", Json.arr
          [Json.obj [("monthlyPcQcCnt", Json.str "7")]])])
        = .ok ⟨Json.str "w", 7, 0, 7 + 0⟩)
    ∧ (0 ≤ (7 : Int) ∧ 0 ≤ (0 : Int) ∧ 0 ≤ (7 : Int) + 0) :=
  ⟨(spec_C4_counts_no_clamping.1 "k" [("total", Json.str "42")]
      ⟨"k", 42⟩ rfl).2 (by decide),
   (spec_C4_counts_no_clamping.2.1 "w"
      [("keywordList", Json.arr [Json.obj [("monthlyPcQcCnt", Json.str "7")]])]
      [("monthlyPcQcCnt", Json.str "7")] [] 7 0 rfl rfl rfl).1,
   (spec_C4_counts_no_clamping.2.1 "w"
      [("keywordList", Json.arr [Json.obj [("monthlyPcQcCnt", Json.str "7")]])]
      [("monthlyPcQcCnt", Json.str "7")] [] 7 0 rfl rfl rfl).2
     (by decide) (by decide)⟩

/-- C5: for every non-200 upstream response, each handler raises an
`HTTPException` carrying exactly the upstream status code and the raw
upstream body text as the detail. -/
theorem spec_C5_non200_propagated (status : Nat) (text : String) (body : Json)
    (h : status ≠ 200) :
    (∀ q, blog_total q (.response status text body) = .httpError status text)
    ∧ (∀ cfg kw ts net req, search_volume_request cfg ts kw = some req →
        net req = .response status text body →
        search_volume cfg kw ts net = .httpError status text) := by
  constructor
  · intro q
    simp [blog_total, h]
  · intro cfg kw ts net req hreq hnet
    simp [search_volume, hreq, hnet, h]

/-- C5, witness: a 403 upstream response with body "denied" is forwarded
as a 403 with detail "denied" by both handlers. -/
theorem spec_C5_witness :
    blog_total "q" (.response 403 "denied" Json.null) = .httpError 403 "denied"
    ∧ search_volume ⟨some "A", some "S", some "C"⟩ "kw" "123"
        (fun _ => .response 403 "denied" Json.null) = .httpError 403 "denied" :=
  ⟨(spec_C5_non200_propagated 403 "denied" Json.null (by decide)).1 "q",
   (spec_C5_non200_propagated 403 "denied" Json.null (by decide)).2
     ⟨some "A", some "S", some "C"⟩ "kw" "123"
     (fun _ => .response 403 "denied" Json.null) _ rfl rfl⟩

/-- The secret gate of `search_volume`: when any of the three ad secrets
is falsy, the handler raises the 500 misconfiguration error and no
outbound request is constructed. -/
theorem search_volume_secret_gate (cfg : AdConfig)
    (h : envTruthy cfg.apiKey = false ∨ envTruthy cfg.secretKey = false ∨
         envTruthy cfg.customerId = false) :
    ∀ kw ts net, search_volume cfg kw ts net
        = .httpError 500 "검색광고 API 키(NAVER_SEARCH_*)가 설정되어 있지 않습니다."
      ∧ search_volume_request cfg ts kw = none := by
  intro kw ts net
  have hreq : search_volume_request cfg ts kw = none := by
    rcases h with h | h | h <;> simp [search_volume_request, h]
  exact ⟨by simp [search_volume, hreq], hreq⟩

/-- C6: if any of the three ad secrets is missing (the environment
variable unset), the search-volume handler fails with HTTP 500 whatever
the network would answer, and no outbound request is constructed. -/
theorem spec_C6_missing_secret_500 (cfg : AdConfig)
    (h : cfg.apiKey = none ∨ cfg.secretKey = none ∨ cfg.customerId = none) :
    ∀ kw ts net, search_volume cfg kw ts net
        = .httpError 500 "검색광고 API 키(NAVER_SEARCH_*)가 설정되어 있지 않습니다."
      ∧ search_volume_request cfg ts kw = none := by
  apply search_volume_secret_gate
  rcases h with h | h | h
  · exact Or.inl (by rw [h]; rfl)
  · exact Or.inr (Or.inl (by rw [h]; rfl))
  · exact Or.inr (Or.inr (by rw [h]; rfl))

/-- C6, witness: with the API key unset, the handler answers 500 and
constructs no request, even though the network oracle would fail. -/
theorem spec_C6_witness :
    search_volume ⟨none, some "S", some "C"⟩ "k" "1" (fun _ => .netError "boom")
      = .httpError 500 "검색광고 API 키(NAVER_SEARCH_*)가 설정되어 있지 않습니다."
    ∧ search_volume_request ⟨none, some "S", some "C"⟩ "1" "k" = none :=
  spec_C6_missing_secret_500 ⟨none, some "S", some "C"⟩ (Or.inl rfl)
    "k" "1" (fun _ => .netError "boom")

/-- C7: on a 200 response whose body is an object in which
`keywordList` is absent or the empty list, the search-volume handler
replies with the original keyword and all three counts 0. -/
theorem spec_C7_empty_keywordlist (kw : String) (fs : List (String × Json))
    (h : lookupField fs "keywordList" = none ∨
         lookupField fs "keywordList" = some (Json.arr [])) :
    search_volume_on200 kw (Json.obj fs) = .ok ⟨Json.str kw, 0, 0, 0⟩ := by
  rcases h with h | h <;> simp [search_volume_on200, h, Json.truthy]

/-- C7, witness: the empty `keywordList` gives the all-zero reply. -/
theorem spec_C7_witness :
    search_volume_on200 "k" (Json.obj [("keywordList", Json.arr [])])
      = .ok ⟨Json.str "k", 0, 0, 0⟩ :=
  spec_C7_empty_keywordlist "k" [("keywordList", Json.arr [])] (Or.inr rfl)

/-- C8, counterexample: the claim says a malformed count value never
fails the request; with the first keyword entry carrying
`monthlyPcQcCnt: "abc"`, the uncaught `int("abc")` `ValueError` aborts
the request. -/
theorem spec_C8_counterexample :
    search_volume_on200 "k" (Json.obj [("keywordList",
        Json.arr [Json.obj [("monthlyPcQcCnt", Json.str "abc")]])])
      = .exn "int() conversion failed" := rfl

/-- C8, amended: each of the two count fields goes through
`int(first.get(key, "0") or 0)`: a falsy value (empty string, null,
missing, 0) coerces to 0 and an integer-parsable string or a number to
its value, in which case the handler succeeds; but a truthy value Python
`int` cannot parse (such as a non-numeric string) raises an uncaught
error that fails the request. -/
theorem spec_C8_lenient_coercion :
    (∀ kw fs ffs rest pc mobile,
      lookupField fs "keywordList" = some (Json.arr (Json.obj ffs :: rest)) →
      coerceCnt ((lookupField ffs "monthlyPcQcCnt").getD (Json.str "0")) = some pc →
      coerceCnt ((lookupField ffs "monthlyMobileQcCnt").getD (Json.str "0"))
        = some mobile →
      search_volume_on200 kw (Json.obj fs)
        = .ok ⟨(lookupField ffs "relKeyword").getD (Json.str kw),
               pc, mobile, pc + mobile⟩)
    ∧ (∀ v, Json.truthy v = false → coerceCnt v = some 0)
    ∧ (∀ v, Json.truthy v = true → coerceCnt v = pyInt v)
    ∧ coerceCnt (Json.str "") = some 0
    ∧ coerceCnt Json.null = some 0
    ∧ coerceCnt (Json.str "0") = some 0
    ∧ coerceCnt (Json.str "100") = some 100
    ∧ coerceCnt (Json.num 7) = some 7
    ∧ pyInt (Json.str "abc") = none := by
  refine ⟨?_, ?_, ?_, rfl, rfl, rfl, by decide, rfl, by decide⟩
  · intro kw fs ffs rest pc mobile h hpc hmob
    simp [search_volume_on200, h, Json.truthy, hpc, hmob]
  · intro v hv
    simp [coerceCnt, hv]
  · intro v hv
    simp [coerceCnt, hv]

/-- C8, witness: the amended theorem applied to a first entry whose pc
count is the empty string and whose mobile count is null (both coerce to
0), and to the falsy value `""`. -/
theorem spec_C8_witness :
    search_volume_on200 "k" (Json.obj [("keywordList", Json.arr
        [Json.obj [("monthlyPcQcCnt", Json.str ""),
                   ("monthlyMobileQcCnt", Json.null)]])])
      = .ok ⟨Json.str "k", 0, 0, 0⟩
    ∧ coerceCnt (Json.str "") = some 0 :=
  ⟨spec_C8_lenient_coercion.1 "k"
      [("keywordList", Json.arr [Json.obj [("monthlyPcQcCnt", Json.str ""),
        ("monthlyMobileQcCnt", Json.null)]])]
      [("monthlyPcQcCnt", Json.str ""), ("monthlyMobileQcCnt", Json.null)]
      [] 0 0 rfl rfl rfl,
   spec_C8_lenient_coercion.2.1 (Json.str "") rfl⟩

/-- C9: in every success reply of the search-volume handler the total is
the sum of the replied pc and mobile counts; concretely, a first entry
carrying its own `monthlyTotalQcCnt: 999` next to pc "100" and mobile
"200" is answered with the recomputed total 300, not 999. -/
theorem spec_C9_total_recomputed :
    (∀ kw body r, search_volume_on200 kw body = .ok r →
      r.monthlyTotalQcCnt = r.monthlyPcQcCnt + r.monthlyMobileQcCnt)
    ∧ search_volume_on200 "k" (Json.obj [("keywordList", Json.arr [Json.obj
        [("relKeyword", Json.str "apple"), ("monthlyPcQcCnt", Json.str "100"),
         ("monthlyMobileQcCnt", Json.str "200"),
         ("monthlyTotalQcCnt", Json.num 999)]])])
      = .ok ⟨Json.str "apple", 100, 200, 300⟩ :=
  ⟨fun kw body r h => sv_ok_total_eq kw body r h, rfl⟩

/-- C9, witness: the sum property instantiated through the handler's
reply to an upstream body with no keyword data. -/
theorem spec_C9_witness :
    (SVReply.mk (Json.str "k") 0 0 0).monthlyTotalQcCnt
      = (SVReply.mk (Json.str "k") 0 0 0).monthlyPcQcCnt
        + (SVReply.mk (Json.str "k") 0 0 0).monthlyMobileQcCnt :=
  spec_C9_total_recomputed.1 "k" (Json.obj []) ⟨Json.str "k", 0, 0, 0⟩ rfl

/-- C10: an ad secret configured as the empty string is rejected exactly
like an absent one — the check is Python falsiness, not an is-set test —
so the handler answers 500 and constructs no outbound request. -/
theorem spec_C10_empty_secret_500 (cfg : AdConfig)
    (h : cfg.apiKey = some "" ∨ cfg.secretKey = some "" ∨
         cfg.customerId = some "") :
    ∀ kw ts net, search_volume cfg kw ts net
        = .httpError 500 "검색광고 API 키(NAVER_SEARCH_*)가 설정되어 있지 않습니다."
      ∧ search_volume_request cfg ts kw = none := by
  apply search_volume_secret_gate
  rcases h with h | h | h
  · exact Or.inl (by rw [h]; rfl)
  · exact Or.inr (Or.inl (by rw [h]; rfl))
  · exact Or.inr (Or.inr (by rw [h]; rfl))

/-- C10, witness: an empty-string API key is rejected with 500 before
any network activity. -/
theorem spec_C10_witness :
    search_volume ⟨some "", some "S", some "C"⟩ "k" "1"
        (fun _ => .netError "boom")
      = .httpError 500 "검색광고 API 키(NAVER_SEARCH_*)가 설정되어 있지 않습니다."
    ∧ search_volume_request ⟨some "", some "S", some "C"⟩ "1" "k" = none :=
  spec_C10_empty_secret_500 ⟨some "", some "S", some "C"⟩ (Or.inl rfl)
    "k" "1" (fun _ => .netError "boom")

end NaverProxy
